import Mathlib

/-!
Verification of the HAG HVAC control core.

Shallow embedding of the HVAC control core of the `hag_effect-ts` repository:
the decision strategies (`HeatingStrategy.shouldHeat`, `CoolingStrategy.shouldCool`,
`HeatingStrategy.needsDefrost`, `HeatingStrategy.startDefrost` from
`src/hvac/state-machine.ts`), the XState mode machine (`createHVACMachine`),
and the orchestrator operations (`evaluateAndExecute`, `start`, `stop`,
`getCurrentHVACMode` from `src/hvac/controller.ts`).

JavaScript numbers are modelled by `JSNum`: either `NaN` or a finite value
(a rational).  Every comparison against `NaN` is false, and `NaN`, `0` and
`undefined` are all falsy, exactly as in JavaScript.  Timestamps are rationals
measured in milliseconds.  Logging calls, which have no effect on the control
flow or on any data the claims mention, are dropped.
-/

namespace HAG

/-- A JavaScript number: `NaN` or a finite value modelled as a rational. -/
inductive JSNum where
  | nan : JSNum
  | num : ℚ → JSNum
deriving DecidableEq

namespace JSNum

/-- JavaScript `<` against a (non-NaN) threshold: false when the left side is `NaN`. -/
def ltQ : JSNum → ℚ → Bool
  | .nan, _ => false
  | .num a, b => a < b

/-- JavaScript `<=` against a (non-NaN) threshold: false when the left side is `NaN`. -/
def leQ : JSNum → ℚ → Bool
  | .nan, _ => false
  | .num a, b => a ≤ b

/-- JavaScript `>` against a (non-NaN) threshold: false when the left side is `NaN`. -/
def gtQ : JSNum → ℚ → Bool
  | .nan, _ => false
  | .num a, b => b < a

/-- JavaScript `>=` against a (non-NaN) threshold: false when the left side is `NaN`. -/
def geQ : JSNum → ℚ → Bool
  | .nan, _ => false
  | .num a, b => b ≤ a

end JSNum

/-- JavaScript truthiness of an optional number: `undefined`, `NaN` and `0` are falsy. -/
def truthy : Option JSNum → Bool
  | none => false
  | some .nan => false
  | some (.num q) => !(q == 0)

/-- `TemperatureThresholds` from `src/types/common.ts`.  These come from the
validated configuration, hence are finite numbers. -/
structure TemperatureThresholds where
  indoorMin : ℚ
  indoorMax : ℚ
  outdoorMin : ℚ
  outdoorMax : ℚ
deriving DecidableEq

/-- `DefrostOptions` from `src/types/common.ts`. -/
structure DefrostOptions where
  temperatureThreshold : ℚ
  periodSeconds : ℚ
  durationSeconds : ℚ
deriving DecidableEq

/-- `ActiveHours` from `src/types/common.ts`; the source field `end` is a Lean
keyword and is rendered `endHour`. -/
structure ActiveHours where
  start : ℤ
  startWeekday : ℤ
  endHour : ℤ
deriving DecidableEq

/-- The heating section of `HvacOptions` (`src/config/settings_simple.ts`). -/
structure HeatingOptions where
  temperature : ℚ
  presetMode : String
  temperatureThresholds : TemperatureThresholds
  defrost : Option DefrostOptions
deriving DecidableEq

/-- The cooling section of `HvacOptions`. -/
structure CoolingOptions where
  temperature : ℚ
  presetMode : String
  temperatureThresholds : TemperatureThresholds
deriving DecidableEq

/-- `SystemMode` from `src/types/common.ts`. -/
inductive SystemMode where
  | auto
  | heat_only
  | cool_only
  | off
deriving DecidableEq

/-- `HVACMode` from `src/types/common.ts`. -/
inductive HVACMode where
  | heat
  | cool
  | off
deriving DecidableEq

/-- `HvacEntity` from `src/types/common.ts`. -/
structure HvacEntity where
  entityId : String
  enabled : Bool
  defrost : Bool
deriving DecidableEq

/-- The parts of `HvacOptions` the control core reads. -/
structure HvacOptions where
  systemMode : SystemMode
  heating : HeatingOptions
  cooling : CoolingOptions
  activeHours : Option ActiveHours
  hvacEntities : List HvacEntity
deriving DecidableEq

/-- `StateChangeData` from `src/types/common.ts`: the input record of the
strategies.  The temperatures may be `NaN`; hour and weekday come from the
wall clock. -/
structure StateChangeData where
  currentTemp : JSNum
  weatherTemp : JSNum
  hour : ℤ
  isWeekday : Bool
deriving DecidableEq

/-- `HeatingStrategy.isActiveHour` (`src/hvac/state-machine.ts`, lines 172–178):
no configured window means always active; otherwise the weekday start is used on
weekdays and `start` otherwise, with an inclusive end bound.
(`CoolingStrategy.isActiveHour`, lines 244–250, is textually identical.) -/
def isActiveHour (opts : HvacOptions) (hour : ℤ) (isWeekday : Bool) : Bool :=
  match opts.activeHours with
  | none => true
  | some activeHours =>
      let start := if isWeekday then activeHours.startWeekday else activeHours.start
      decide (start ≤ hour) && decide (hour ≤ activeHours.endHour)

/-- `HeatingStrategy.shouldHeat` (`src/hvac/state-machine.ts`, lines 42–100),
logging removed: reject if the indoor reading is at or above `indoorMax`, if the
outdoor reading is outside `[outdoorMin, outdoorMax]`, or outside active hours;
otherwise heat iff the indoor reading is strictly below `indoorMin`. -/
def shouldHeat (opts : HvacOptions) (data : StateChangeData) : Bool :=
  let thresholds := opts.heating.temperatureThresholds
  if data.currentTemp.geQ thresholds.indoorMax then false
  else if data.weatherTemp.ltQ thresholds.outdoorMin || data.weatherTemp.gtQ thresholds.outdoorMax then
    false
  else if !(isActiveHour opts data.hour data.isWeekday) then false
  else data.currentTemp.ltQ thresholds.indoorMin

/-- `CoolingStrategy.shouldCool` (`src/hvac/state-machine.ts`, lines 184–242),
logging removed: symmetric to `shouldHeat` over the cooling thresholds. -/
def shouldCool (opts : HvacOptions) (data : StateChangeData) : Bool :=
  let thresholds := opts.cooling.temperatureThresholds
  if data.currentTemp.leQ thresholds.indoorMin then false
  else if data.weatherTemp.ltQ thresholds.outdoorMin || data.weatherTemp.gtQ thresholds.outdoorMax then
    false
  else if !(isActiveHour opts data.hour data.isWeekday) then false
  else data.currentTemp.gtQ thresholds.indoorMax

/-- The one piece of mutable state of `HeatingStrategy`: its private
`lastDefrost` timestamp (milliseconds). -/
structure HeatingStrategyState where
  lastDefrost : Option ℚ
deriving DecidableEq

/-- `HeatingStrategy.needsDefrost` (`src/hvac/state-machine.ts`, lines 102–158),
logging removed.  `now` is the value of `Date.now()` in milliseconds. -/
def needsDefrost (opts : HvacOptions) (lastDefrost : Option ℚ) (now : ℚ)
    (data : StateChangeData) : Bool :=
  match opts.heating.defrost with
  | none => false
  | some defrost =>
      if data.weatherTemp.gtQ defrost.temperatureThreshold then false
      else
        match lastDefrost with
        | some last =>
            let timeSinceDefrost := now - last
            let periodMs := defrost.periodSeconds * 1000
            if timeSinceDefrost < periodMs then false else true
        | none => true

/-- `HeatingStrategy.startDefrost` (`src/hvac/state-machine.ts`, lines 160–170):
records `now` as the last defrost timestamp.  Its Effect type is
`Effect<void, never>`: it cannot fail, which the totality of this function
reflects. -/
def startDefrost (now : ℚ) (_s : HeatingStrategyState) : HeatingStrategyState :=
  { lastDefrost := some now }

/-- `HVACContext` from `src/types/common.ts`: the state machine's extended
context.  Optional temperatures may be absent (`none`) or `NaN`. -/
structure HVACContext where
  indoorTemp : Option JSNum
  outdoorTemp : Option JSNum
  currentHour : ℤ
  isWeekday : Bool
  lastDefrost : Option ℚ
  systemMode : SystemMode
deriving DecidableEq

/-- `Partial<HVACContext>`: the payload of an `UPDATE_CONDITIONS` event.  An
outer `none` means the key is absent from the payload; a present key overrides
the corresponding context field on merge. -/
structure PartialHVACContext where
  indoorTemp : Option (Option JSNum)
  outdoorTemp : Option (Option JSNum)
  currentHour : Option ℤ
  isWeekday : Option Bool
  lastDefrost : Option (Option ℚ)
  systemMode : Option SystemMode
deriving DecidableEq

/-- The empty `UPDATE_CONDITIONS` payload (no keys present). -/
def PartialHVACContext.empty : PartialHVACContext :=
  { indoorTemp := none, outdoorTemp := none, currentHour := none,
    isWeekday := none, lastDefrost := none, systemMode := none }

/-- The `updateConditions` action (`src/hvac/state-machine.ts`, lines 427–430):
the JavaScript spread `{ ...context, ...event.data }`. -/
def mergeConditions (ctx : HVACContext) (data : PartialHVACContext) : HVACContext :=
  { indoorTemp := data.indoorTemp.getD ctx.indoorTemp
    outdoorTemp := data.outdoorTemp.getD ctx.outdoorTemp
    currentHour := data.currentHour.getD ctx.currentHour
    isWeekday := data.isWeekday.getD ctx.isWeekday
    lastDefrost := data.lastDefrost.getD ctx.lastDefrost
    systemMode := data.systemMode.getD ctx.systemMode }

/-- `HVACEvent` (`src/hvac/state-machine.ts`, lines 17–26).  The extra
`timerElapsed` constructor models the firing of the XState `after` delayed
transition of whichever state the machine currently rests in. -/
inductive HVACEvent where
  | heat
  | cool
  | off
  | autoEvaluate
  | defrostNeeded
  | defrostComplete
  | updateConditions (data : PartialHVACContext)
  | updateTemperatures (indoor outdoor : JSNum)
  | manualOverride (mode : HVACMode) (temperature : Option ℚ)
  | timerElapsed
deriving DecidableEq

/-- The finite-state variable of the machine (`createHVACMachine` states). -/
inductive HVACState where
  | idle
  | evaluating
  | heating
  | cooling
  | defrosting
  | manualOverride
deriving DecidableEq

/-- Wall-clock inputs read by guards and actions during one event step:
`Date.now()` in milliseconds, `new Date().getHours()` and the weekday flag
`getDay() >= 1 && getDay() <= 5`. -/
structure Clock where
  nowMs : ℚ
  hour : ℤ
  weekday : Bool
deriving DecidableEq

/-- One snapshot of the running machine: finite state, context, and the
heating strategy's private defrost timestamp. -/
structure MachineState where
  state : HVACState
  context : HVACContext
  strategy : HeatingStrategyState
deriving DecidableEq

/-- How the guards feed the context into a strategy call
(`src/hvac/state-machine.ts`, lines 461–466 and analogues).  The guards only
reach the strategy once both temperatures are truthy, so the `NaN` defaults
are never observed. -/
def toStateChangeData (ctx : HVACContext) : StateChangeData :=
  { currentTemp := ctx.indoorTemp.getD .nan
    weatherTemp := ctx.outdoorTemp.getD .nan
    hour := ctx.currentHour
    isWeekday := ctx.isWeekday }

/-- Guard `canHeat` (`src/hvac/state-machine.ts`, lines 450–469): system-mode
exclusions, then the JavaScript-truthiness presence check
`!context.indoorTemp || !context.outdoorTemp`, then `shouldHeat`. -/
def canHeat (opts : HvacOptions) (ctx : HVACContext) : Bool :=
  if ctx.systemMode == .cool_only || ctx.systemMode == .off then false
  else if !(truthy ctx.indoorTemp) || !(truthy ctx.outdoorTemp) then false
  else shouldHeat opts (toStateChangeData ctx)

/-- Guard `canCool` (`src/hvac/state-machine.ts`, lines 470–487). -/
def canCool (opts : HvacOptions) (ctx : HVACContext) : Bool :=
  if ctx.systemMode == .heat_only || ctx.systemMode == .off then false
  else if !(truthy ctx.indoorTemp) || !(truthy ctx.outdoorTemp) then false
  else shouldCool opts (toStateChangeData ctx)

/-- Guard `shouldAutoHeat` (`src/hvac/state-machine.ts`, lines 488–503):
only valid when `systemMode == AUTO`. -/
def shouldAutoHeat (opts : HvacOptions) (ctx : HVACContext) : Bool :=
  if !(ctx.systemMode == .auto) then false
  else if !(truthy ctx.indoorTemp) || !(truthy ctx.outdoorTemp) then false
  else shouldHeat opts (toStateChangeData ctx)

/-- Guard `shouldAutoCool` (`src/hvac/state-machine.ts`, lines 504–519). -/
def shouldAutoCool (opts : HvacOptions) (ctx : HVACContext) : Bool :=
  if !(ctx.systemMode == .auto) then false
  else if !(truthy ctx.indoorTemp) || !(truthy ctx.outdoorTemp) then false
  else shouldCool opts (toStateChangeData ctx)

/-- Guard `canDefrost` (`src/hvac/state-machine.ts`, lines 520–533). -/
def canDefrost (opts : HvacOptions) (strategy : HeatingStrategyState) (now : ℚ)
    (ctx : HVACContext) : Bool :=
  if !(truthy ctx.indoorTemp) || !(truthy ctx.outdoorTemp) then false
  else needsDefrost opts strategy.lastDefrost now (toStateChangeData ctx)

/-- The `updateTemperatures` action (`src/hvac/state-machine.ts`, lines
431–440): overwrite both temperatures from the event and refresh
`currentHour`/`isWeekday` from the wall clock. -/
def updateTemperaturesAction (clock : Clock) (ctx : HVACContext)
    (indoor outdoor : JSNum) : HVACContext :=
  { ctx with
    indoorTemp := some indoor
    outdoorTemp := some outdoor
    currentHour := clock.hour
    isWeekday := clock.weekday }

/-- The `always` transitions of the transient `evaluating` state
(`src/hvac/state-machine.ts`, lines 296–311): `shouldAutoHeat` → `heating`,
else `shouldAutoCool` → `cooling`, else `idle`.  Every other state is stable. -/
def resolveAlways (opts : HvacOptions) (s : MachineState) : MachineState :=
  match s.state with
  | .evaluating =>
      if shouldAutoHeat opts s.context then { s with state := .heating }
      else if shouldAutoCool opts s.context then { s with state := .cooling }
      else { s with state := .idle }
  | _ => s

/-- The event transition of the current state (unhandled events are dropped),
with the entry actions that have observable effect (`startDefrost` on entering
`defrosting`).  `timerElapsed` fires the current state's `after` transition
(heating/cooling: re-evaluate, defrosting: complete to heating,
manualOverride: return to evaluation). -/
def stepRaw (opts : HvacOptions) (clock : Clock) (s : MachineState)
    (e : HVACEvent) : MachineState :=
  match s.state, e with
    | .idle, .heat => if canHeat opts s.context then { s with state := .heating } else s
    | .idle, .cool => if canCool opts s.context then { s with state := .cooling } else s
    | .idle, .autoEvaluate => { s with state := .evaluating }
    | .idle, .updateConditions data =>
        { s with context := mergeConditions s.context data }
    | .idle, .updateTemperatures i o =>
        { s with context := updateTemperaturesAction clock s.context i o }
    | .idle, .manualOverride _ _ => { s with state := .manualOverride }
    | .heating, .off => { s with state := .idle }
    | .heating, .cool => if canCool opts s.context then { s with state := .cooling } else s
    | .heating, .defrostNeeded =>
        if canDefrost opts s.strategy clock.nowMs s.context then
          { s with state := .defrosting, strategy := startDefrost clock.nowMs s.strategy }
        else s
    | .heating, .updateConditions data =>
        { s with context := mergeConditions s.context data }
    | .heating, .updateTemperatures i o =>
        { s with context := updateTemperaturesAction clock s.context i o }
    | .heating, .autoEvaluate => { s with state := .evaluating }
    | .heating, .manualOverride _ _ => { s with state := .manualOverride }
    | .heating, .timerElapsed => { s with state := .evaluating }
    | .cooling, .off => { s with state := .idle }
    | .cooling, .heat => if canHeat opts s.context then { s with state := .heating } else s
    | .cooling, .updateConditions data =>
        { s with context := mergeConditions s.context data }
    | .cooling, .updateTemperatures i o =>
        { s with context := updateTemperaturesAction clock s.context i o }
    | .cooling, .autoEvaluate => { s with state := .evaluating }
    | .cooling, .manualOverride _ _ => { s with state := .manualOverride }
    | .cooling, .timerElapsed => { s with state := .evaluating }
    | .defrosting, .off => { s with state := .idle }
    | .defrosting, .defrostComplete => { s with state := .heating }
    | .defrosting, .manualOverride _ _ => { s with state := .manualOverride }
    | .defrosting, .timerElapsed => { s with state := .heating }
    | .manualOverride, .autoEvaluate => { s with state := .evaluating }
    | .manualOverride, .updateConditions data =>
        { s with context := mergeConditions s.context data }
    | .manualOverride, .updateTemperatures i o =>
        { s with context := updateTemperaturesAction clock s.context i o }
    | .manualOverride, .timerElapsed => { s with state := .evaluating }
    | _, _ => s

/-- One macro-step of the XState machine (`createHVACMachine`,
`src/hvac/state-machine.ts`, lines 259–535): the event transition of the
current state, then resolution of the transient `evaluating` state through
its `always` transitions. -/
def step (opts : HvacOptions) (clock : Clock) (s : MachineState)
    (e : HVACEvent) : MachineState :=
  resolveAlways opts (stepRaw opts clock s e)

/-- `getCurrentHVACMode` (`src/hvac/controller.ts`, lines 790–802): resolve a
machine state name to an HVAC mode; `evaluating` and `manualOverride` fall to
the default branch and resolve to `undefined`. -/
def getCurrentHVACMode : HVACState → Option HVACMode
  | .heating => some .heat
  | .defrosting => some .heat
  | .cooling => some .cool
  | .idle => some .off
  | _ => none

/-- `evaluateAndExecute` (`src/hvac/controller.ts`, lines 662–700): snapshot
the state, send `AUTO_EVALUATE`, snapshot again; invoke `executeHVACMode` (fan
out actuation commands to the enabled devices) exactly when the resolved mode
is defined and the state changed or the current state is `manualOverride`.
The returned boolean records whether `executeHVACMode` was invoked, i.e.
whether a round of actuation commands was issued. -/
def evaluateAndExecute (opts : HvacOptions) (clock : Clock)
    (s : MachineState) : MachineState × Bool :=
  let previousState := s.state
  let s' := step opts clock s .autoEvaluate
  let hvacMode := getCurrentHVACMode s'.state
  let execute :=
    hvacMode.isSome &&
      (!(previousState == s'.state) || s'.state == .manualOverride)
  (s', execute)

/-- The structured `StateError` of `src/core/exceptions.ts`, as raised by the
controller entry points. -/
inductive StateError where
  | stateError (message : String)
deriving DecidableEq

/-- The observable resources the controller owns or drives: the `running` flag
of its `ControllerState` ref, the gateway connection, the state machine actor,
the event subscription and the periodic monitoring fiber. -/
structure ControllerWorld where
  running : Bool
  haConnected : Bool
  machineRunning : Bool
  subscribed : Bool
  monitorActive : Bool
deriving DecidableEq

/-- Which fallible collaborator calls of `start()` throw in a given run:
`haClient.connect()` and the event-subscription setup.  (The state machine's
own `start()` fails exactly when its actor already exists, which
`ControllerWorld.machineRunning` records, so it needs no flag here.) -/
structure StartEnv where
  connectFails : Bool
  subscribeFails : Bool
deriving DecidableEq

/-- `HVACControllerImpl.stop` (`src/hvac/controller.ts`, lines 105–124): set
`running := false`, interrupt the monitoring fiber, stop the state machine,
disconnect the gateway.  Every constituent is total (`stateMachine.stop` and
`haClient.disconnect` both have error type `never`) and the whole pipeline
ends in `Effect.catchAll`, so `stop` is a total function: it never fails. -/
def stop (w : ControllerWorld) : ControllerWorld :=
  { w with
    running := false
    monitorActive := false
    machineRunning := false
    haConnected := false }

/-- The error `start()` surfaces through its `catchAll` handler. -/
def startFailure : StateError := .stateError "Failed to start HVAC controller"

/-- `HVACControllerImpl.start` (`src/hvac/controller.ts`, lines 57–100):
if already running, log a warning and return successfully without doing
anything; otherwise connect, start the state machine, subscribe, start the
monitor, trigger the initial evaluation (which swallows its own errors) and
set `running := true`.  Any thrown step trips the `catchAll`, which runs
`stop()` and fails with a structured `StateError`.  Returns the outcome and
the resulting world. -/
def start (env : StartEnv) (w : ControllerWorld) :
    Option StateError × ControllerWorld :=
  if w.running then (none, w)
  else if env.connectFails then (some startFailure, stop w)
  else
    let w1 := { w with haConnected := true }
    if w1.machineRunning then (some startFailure, stop w1)
    else
      let w2 := { w1 with machineRunning := true }
      if env.subscribeFails then (some startFailure, stop w2)
      else
        let w3 := { w2 with subscribed := true }
        let w4 := { w3 with monitorActive := true }
        (none, { w4 with running := true })

/-! Concrete sample data.

Mirrors the configuration of `tests/fixtures/test-fixtures.ts` (heating
thresholds 20, 22, -10, 15; defrost at -5 outdoor every 3600 s for 300 s;
cooling thresholds 23, 25, 20, 40), with no active-hours window. -/

/-- A sample policy, used to evaluate the definitions at concrete inputs. -/
def sampleOpts : HvacOptions :=
  { systemMode := .auto
    heating :=
      { temperature := 21
        presetMode := "comfort"
        temperatureThresholds :=
          { indoorMin := 20, indoorMax := 22, outdoorMin := -10, outdoorMax := 15 }
        defrost :=
          some { temperatureThreshold := -5, periodSeconds := 3600, durationSeconds := 300 } }
    cooling :=
      { temperature := 24
        presetMode := "windFree"
        temperatureThresholds :=
          { indoorMin := 23, indoorMax := 25, outdoorMin := 20, outdoorMax := 40 }
    }
    activeHours := none
    hvacEntities := [{ entityId := "climate.living_room_ac", enabled := true, defrost := true }] }

/-- A sample machine context with valid readings and `systemMode = AUTO`. -/
def sampleCtx : HVACContext :=
  { indoorTemp := some (.num 21)
    outdoorTemp := some (.num 5)
    currentHour := 10
    isWeekday := true
    lastDefrost := none
    systemMode := .auto }

/-- A sample wall clock. -/
def sampleClock : Clock := { nowMs := 1000000, hour := 10, weekday := true }

/-- A policy whose heating band (20–22) and cooling band (19–23) overlap,
used to exercise the dead-band theorem at an interior point. -/
def deadBandOpts : HvacOptions :=
  { sampleOpts with
    cooling :=
      { temperature := 24
        presetMode := "windFree"
        temperatureThresholds :=
          { indoorMin := 19, indoorMax := 23, outdoorMin := 20, outdoorMax := 40 } } }

/-- The target the transient `evaluating` state resolves to. -/
def evalTarget (opts : HvacOptions) (ctx : HVACContext) : HVACState :=
  if shouldAutoHeat opts ctx then .heating
  else if shouldAutoCool opts ctx then .cooling
  else .idle

/-- An event whose processing may touch `systemMode`: an `UPDATE_CONDITIONS`
whose payload explicitly carries a `systemMode` value (externally supplied
reconfiguration data merged verbatim into the context). -/
def carriesSystemMode : HVACEvent → Bool
  | .updateConditions data => data.systemMode.isSome
  | _ => false

/-- A controller world in which everything is already up and running. -/
def runningWorld : ControllerWorld :=
  { running := true, haConnected := true, machineRunning := true,
    subscribed := true, monitorActive := true }

/-! Claim theorems. -/

/-- Reject chains of the strategies, flattened into a Boolean conjunction. -/
lemma if_reject_chain (c1 c2 c3 b : Bool) :
    (if c1 then false else if c2 then false else if !c3 then false else b) =
      (!c1 && (!c2 && (c3 && b))) := by
  cases c1 <;> cases c2 <;> cases c3 <;> cases b <;> rfl

/-- `shouldHeat` as one Boolean conjunction of its four gates. -/
lemma shouldHeat_eq (opts : HvacOptions) (data : StateChangeData) :
    shouldHeat opts data =
      (!data.currentTemp.geQ opts.heating.temperatureThresholds.indoorMax &&
       (!(data.weatherTemp.ltQ opts.heating.temperatureThresholds.outdoorMin ||
          data.weatherTemp.gtQ opts.heating.temperatureThresholds.outdoorMax) &&
        (isActiveHour opts data.hour data.isWeekday &&
         data.currentTemp.ltQ opts.heating.temperatureThresholds.indoorMin))) := by
  unfold shouldHeat
  rw [if_reject_chain]

/-- `shouldCool` as one Boolean conjunction of its four gates. -/
lemma shouldCool_eq (opts : HvacOptions) (data : StateChangeData) :
    shouldCool opts data =
      (!data.currentTemp.leQ opts.cooling.temperatureThresholds.indoorMin &&
       (!(data.weatherTemp.ltQ opts.cooling.temperatureThresholds.outdoorMin ||
          data.weatherTemp.gtQ opts.cooling.temperatureThresholds.outdoorMax) &&
        (isActiveHour opts data.hour data.isWeekday &&
         data.currentTemp.gtQ opts.cooling.temperatureThresholds.indoorMax))) := by
  unfold shouldCool
  rw [if_reject_chain]

/-- Claim C1: For every policy and every context with numeric readings,
`shouldHeat` returns false if `indoorTemp >= indoorMax`, false if
`outdoorTemp` is outside `[outdoorMin, outdoorMax]`, false if the hour is
outside the active-hours window, and otherwise returns true iff
`indoorTemp < indoorMin`; equivalently, it approves exactly when all four
gates pass.  The second conjunct pins down the active-hours window: weekday
start on weekdays, weekend start otherwise, end inclusive, and no configured
window always passes. -/
theorem shouldHeat_characterized (opts : HvacOptions) (it ot : ℚ) (h : ℤ) (w : Bool) :
    (shouldHeat opts ⟨.num it, .num ot, h, w⟩ = true ↔
      (it < opts.heating.temperatureThresholds.indoorMax ∧
       opts.heating.temperatureThresholds.outdoorMin ≤ ot ∧
       ot ≤ opts.heating.temperatureThresholds.outdoorMax ∧
       isActiveHour opts h w = true ∧
       it < opts.heating.temperatureThresholds.indoorMin)) ∧
    (isActiveHour opts h w = true ↔
      ∀ ah, opts.activeHours = some ah →
        ((if w then ah.startWeekday else ah.start) ≤ h ∧ h ≤ ah.endHour)) := by
  constructor
  · rw [shouldHeat_eq]
    simp only [JSNum.geQ, JSNum.ltQ, JSNum.gtQ, Bool.and_eq_true, Bool.not_eq_true',
      Bool.or_eq_false_iff, decide_eq_true_eq, decide_eq_false_iff_not, not_lt, not_le]
    tauto
  · unfold isActiveHour
    cases hah : opts.activeHours with
    | none => simp
    | some ah => simp [hah]

/-- Claim C2 counterexample: With the sample policy (heating band 20–22,
outdoor range -10–15, no active-hours window), an indoor reading of 19 and a
`NaN` outdoor reading, `shouldHeat` returns `true`: the `NaN` outdoor value
passes the outdoor-range check, because both JavaScript comparisons against
`NaN` are false.  This refutes the claim that a `NaN` reading never triggers
heating. -/
theorem shouldHeat_nan_outdoor_cex :
    shouldHeat sampleOpts
      { currentTemp := .num 19, weatherTemp := .nan, hour := 10, isWeekday := true } = true := by
  decide

/-- Claim C2 (amended): A `NaN` indoor reading yields `false` from `shouldHeat`
and `shouldCool` (the final strict comparison against `NaN` fails), and at the
machine level every guard (`canHeat`, `canCool`, `shouldAutoHeat`,
`shouldAutoCool`, `canDefrost`) returns `false` whenever either reading is
missing or `NaN` (the truthiness presence check rejects them).  A `NaN`
*outdoor* reading, however, passes the strategies' outdoor-range checks, so
`shouldHeat`, `shouldCool` and `needsDefrost` called directly can still return
`true` (see the counterexample). -/
theorem nan_missing_readings_blocked (opts : HvacOptions) (data : StateChangeData)
    (ctx : HVACContext) (strategy : HeatingStrategyState) (now : ℚ)
    (hdata : data.currentTemp = .nan)
    (hctx : ctx.indoorTemp = none ∨ ctx.indoorTemp = some .nan ∨
            ctx.outdoorTemp = none ∨ ctx.outdoorTemp = some .nan) :
    shouldHeat opts data = false ∧ shouldCool opts data = false ∧
    canHeat opts ctx = false ∧ canCool opts ctx = false ∧
    shouldAutoHeat opts ctx = false ∧ shouldAutoCool opts ctx = false ∧
    canDefrost opts strategy now ctx = false := by
  refine ⟨?_, ?_, ?_, ?_, ?_, ?_, ?_⟩
  · rw [shouldHeat_eq]; simp [hdata, JSNum.ltQ]
  · rw [shouldCool_eq]; simp [hdata, JSNum.gtQ]
  all_goals
    rcases hctx with h0 | h0 | h0 | h0 <;>
      simp [canHeat, canCool, shouldAutoHeat, shouldAutoCool, canDefrost, truthy, h0]

/-- Claim C2 witness: for the amended statement, at a `NaN` indoor reading and a
context with a missing indoor reading. -/
theorem nan_missing_readings_blocked_witness :
    shouldHeat sampleOpts { currentTemp := .nan, weatherTemp := .num 5, hour := 10, isWeekday := true } = false ∧
    shouldCool sampleOpts { currentTemp := .nan, weatherTemp := .num 5, hour := 10, isWeekday := true } = false ∧
    canHeat sampleOpts { sampleCtx with indoorTemp := none } = false ∧
    canCool sampleOpts { sampleCtx with indoorTemp := none } = false ∧
    shouldAutoHeat sampleOpts { sampleCtx with indoorTemp := none } = false ∧
    shouldAutoCool sampleOpts { sampleCtx with indoorTemp := none } = false ∧
    canDefrost sampleOpts ⟨none⟩ 0 { sampleCtx with indoorTemp := none } = false :=
  nan_missing_readings_blocked sampleOpts
    { currentTemp := .nan, weatherTemp := .num 5, hour := 10, isWeekday := true }
    { sampleCtx with indoorTemp := none } ⟨none⟩ 0 rfl (Or.inl rfl)

/-- Claim C3: Dead band: for every indoor reading strictly inside the heating
band and strictly inside the cooling band, and every outdoor reading
(including `NaN`), hour and weekday flag, both `shouldHeat` and `shouldCool`
return `false`: the reading is at or above the heating `indoorMin`, so the
final heating test fails, and at or below the cooling `indoorMax`, so the
final cooling test fails. -/
theorem dead_band (opts : HvacOptions) (it : ℚ) (ot : JSNum) (h : ℤ) (w : Bool)
    (h1 : opts.heating.temperatureThresholds.indoorMin < it)
    (h2 : it < opts.heating.temperatureThresholds.indoorMax)
    (h3 : opts.cooling.temperatureThresholds.indoorMin < it)
    (h4 : it < opts.cooling.temperatureThresholds.indoorMax) :
    shouldHeat opts ⟨.num it, ot, h, w⟩ = false ∧
    shouldCool opts ⟨.num it, ot, h, w⟩ = false := by
  have hh : (JSNum.num it).ltQ opts.heating.temperatureThresholds.indoorMin = false := by
    simp only [JSNum.ltQ, decide_eq_false_iff_not, not_lt]
    linarith
  have hc : (JSNum.num it).gtQ opts.cooling.temperatureThresholds.indoorMax = false := by
    simp only [JSNum.gtQ, decide_eq_false_iff_not, not_lt]
    linarith
  exact ⟨by rw [shouldHeat_eq]; simp [hh], by rw [shouldCool_eq]; simp [hc]⟩

/-- Claim C3 witness: at the interior point 21 of the overlapping bands. -/
theorem dead_band_witness :
    shouldHeat deadBandOpts ⟨.num 21, .num 5, 10, true⟩ = false ∧
    shouldCool deadBandOpts ⟨.num 21, .num 5, 10, true⟩ = false :=
  dead_band deadBandOpts 21 (.num 5) 10 true
    (by decide) (by decide) (by decide) (by decide)

/-- Claim C4: `startDefrost` records the given instant as the last-defrost
timestamp (and, being total, always succeeds); afterwards, for any outdoor
temperature and any strategy input, `needsDefrost` returns `false` at every
instant `t` with `t - t0 < periodSeconds` (in milliseconds,
`t - t0 < periodSeconds * 1000`), under the same defrost policy. -/
theorem startDefrost_suppresses_needsDefrost (opts : HvacOptions)
    (d : DefrostOptions) (s : HeatingStrategyState) (t0 t : ℚ)
    (data : StateChangeData)
    (hd : opts.heating.defrost = some d)
    (ht : t - t0 < d.periodSeconds * 1000) :
    (startDefrost t0 s).lastDefrost = some t0 ∧
    needsDefrost opts (startDefrost t0 s).lastDefrost t data = false := by
  refine ⟨rfl, ?_⟩
  simp only [startDefrost, needsDefrost, hd]
  split_ifs with hw
  · rfl
  · rfl

/-- Claim C4 witness: with the sample defrost policy (period 3600 s), 1000 ms
after a defrost start at time 0, `needsDefrost` is `false` even at an outdoor
temperature of -20 (below the defrost threshold). -/
theorem startDefrost_suppresses_needsDefrost_witness :
    (startDefrost 0 ⟨none⟩).lastDefrost = some 0 ∧
    needsDefrost sampleOpts (startDefrost 0 ⟨none⟩).lastDefrost 1000
      { currentTemp := .num 19, weatherTemp := .num (-20), hour := 10, isWeekday := true } = false :=
  startDefrost_suppresses_needsDefrost sampleOpts
    { temperatureThreshold := -5, periodSeconds := 3600, durationSeconds := 300 }
    ⟨none⟩ 0 1000
    { currentTemp := .num 19, weatherTemp := .num (-20), hour := 10, isWeekday := true }
    rfl (by norm_num)

/-- Claim C9: Every transition guard returns `false` whenever the context's
indoor or outdoor temperature is exactly `0`: the presence check
`!context.indoorTemp || !context.outdoorTemp` uses JavaScript truthiness, and
`0` is falsy, so a valid reading of zero degrees blocks the guarded
transition just like a missing reading. -/
theorem zero_reading_blocks_guards (opts : HvacOptions)
    (s : HeatingStrategyState) (now : ℚ) (ctx : HVACContext)
    (h0 : ctx.indoorTemp = some (.num 0) ∨ ctx.outdoorTemp = some (.num 0)) :
    canHeat opts ctx = false ∧ canCool opts ctx = false ∧
    shouldAutoHeat opts ctx = false ∧ shouldAutoCool opts ctx = false ∧
    canDefrost opts s now ctx = false := by
  rcases h0 with h0 | h0 <;>
    simp [canHeat, canCool, shouldAutoHeat, shouldAutoCool, canDefrost, truthy, h0]

/-! Machine-step helper lemmas. -/

/-- Resolving the `always` transitions can only move the finite state. -/
lemma resolveAlways_context (opts : HvacOptions) (s : MachineState) :
    (resolveAlways opts s).context = s.context := by
  rcases s with ⟨st, ctx, strat⟩
  cases st <;> simp [resolveAlways] <;> split_ifs <;> rfl

/-- No event transition of the machine touches `systemMode`, except the merge
of an `UPDATE_CONDITIONS` payload that carries one. -/
lemma stepRaw_systemMode (opts : HvacOptions) (clock : Clock) (s : MachineState)
    (e : HVACEvent) (he : carriesSystemMode e = false) :
    (stepRaw opts clock s e).context.systemMode = s.context.systemMode := by
  obtain ⟨st, ctx, strat⟩ := s
  cases st <;> cases e <;>
    first
      | rfl
      | (simp only [stepRaw]; split_ifs <;> rfl)
      | (rename_i data
         cases hd : data.systemMode with
         | none => simp [stepRaw, mergeConditions, hd]
         | some m => simp [carriesSystemMode, hd] at he)

lemma step_systemMode (opts : HvacOptions) (clock : Clock) (s : MachineState)
    (e : HVACEvent) (he : carriesSystemMode e = false) :
    (step opts clock s e).context.systemMode = s.context.systemMode := by
  unfold step
  rw [resolveAlways_context]
  exact stepRaw_systemMode opts clock s e he

lemma resolveAlways_evaluating (opts : HvacOptions) (ctx : HVACContext)
    (strat : HeatingStrategyState) :
    resolveAlways opts ⟨.evaluating, ctx, strat⟩ = ⟨evalTarget opts ctx, ctx, strat⟩ := by
  unfold resolveAlways evalTarget
  split_ifs <;> rfl

lemma evalTarget_mem (opts : HvacOptions) (ctx : HVACContext) :
    evalTarget opts ctx = .heating ∨ evalTarget opts ctx = .cooling ∨
    evalTarget opts ctx = .idle := by
  unfold evalTarget
  split_ifs <;> simp

lemma evalTarget_ne_manualOverride (opts : HvacOptions) (ctx : HVACContext) :
    evalTarget opts ctx ≠ .manualOverride := by
  rcases evalTarget_mem opts ctx with h | h | h <;> simp [h]

/-- In the four states that handle `UPDATE_TEMPERATURES`, the event leaves
the machine state and the strategy untouched and applies the
`updateTemperatures` action to the context. -/
lemma step_update_four (opts : HvacOptions) (clock : Clock) (ctx : HVACContext)
    (strat : HeatingStrategyState) (σ : HVACState)
    (hσ : σ = .idle ∨ σ = .heating ∨ σ = .cooling ∨ σ = .manualOverride)
    (i o : JSNum) :
    step opts clock ⟨σ, ctx, strat⟩ (.updateTemperatures i o) =
      ⟨σ, updateTemperaturesAction clock ctx i o, strat⟩ := by
  rcases hσ with h | h | h | h <;> subst h <;> rfl

lemma updateTemperaturesAction_idem (clock : Clock) (ctx : HVACContext) (i o : JSNum) :
    updateTemperaturesAction clock (updateTemperaturesAction clock ctx i o) i o =
      updateTemperaturesAction clock ctx i o := rfl

/-- In the four states that handle `AUTO_EVALUATE`, the event enters
`evaluating`, whose `always` transitions immediately resolve it. -/
lemma step_eval_four (opts : HvacOptions) (clock : Clock) (ctx : HVACContext)
    (strat : HeatingStrategyState) (σ : HVACState)
    (hσ : σ = .idle ∨ σ = .heating ∨ σ = .cooling ∨ σ = .manualOverride) :
    step opts clock ⟨σ, ctx, strat⟩ .autoEvaluate = ⟨evalTarget opts ctx, ctx, strat⟩ := by
  rcases hσ with h | h | h | h <;> subst h <;> exact resolveAlways_evaluating opts ctx strat

lemma step_eval_defrosting (opts : HvacOptions) (clock : Clock) (ctx : HVACContext)
    (strat : HeatingStrategyState) :
    step opts clock ⟨.defrosting, ctx, strat⟩ .autoEvaluate = ⟨.defrosting, ctx, strat⟩ := rfl

lemma step_update_defrosting (opts : HvacOptions) (clock : Clock) (ctx : HVACContext)
    (strat : HeatingStrategyState) (i o : JSNum) :
    step opts clock ⟨.defrosting, ctx, strat⟩ (.updateTemperatures i o) =
      ⟨.defrosting, ctx, strat⟩ := rfl

lemma evaluateAndExecute_fst (opts : HvacOptions) (clock : Clock) (s : MachineState) :
    (evaluateAndExecute opts clock s).1 = step opts clock s .autoEvaluate := rfl

/-- Evaluating from a state that already equals the evaluation target changes
nothing and issues no actuation round. -/
lemma evaluateAndExecute_at_target (opts : HvacOptions) (clock : Clock)
    (ctx : HVACContext) (strat : HeatingStrategyState) :
    evaluateAndExecute opts clock ⟨evalTarget opts ctx, ctx, strat⟩ =
      (⟨evalTarget opts ctx, ctx, strat⟩, false) := by
  have htarget := step_eval_four opts clock ctx strat (evalTarget opts ctx)
    (by rcases evalTarget_mem opts ctx with h | h | h <;> simp [h])
  have hne := evalTarget_ne_manualOverride opts ctx
  unfold evaluateAndExecute
  rw [htarget]
  simp [hne]

lemma evaluateAndExecute_defrosting (opts : HvacOptions) (clock : Clock)
    (ctx : HVACContext) (strat : HeatingStrategyState) :
    evaluateAndExecute opts clock ⟨.defrosting, ctx, strat⟩ =
      (⟨.defrosting, ctx, strat⟩, false) := rfl

/-- Claim C9 witness: at an indoor reading of exactly 0 degrees with a valid
outdoor reading. -/
theorem zero_reading_blocks_guards_witness :
    canHeat sampleOpts { sampleCtx with indoorTemp := some (.num 0) } = false ∧
    canCool sampleOpts { sampleCtx with indoorTemp := some (.num 0) } = false ∧
    shouldAutoHeat sampleOpts { sampleCtx with indoorTemp := some (.num 0) } = false ∧
    shouldAutoCool sampleOpts { sampleCtx with indoorTemp := some (.num 0) } = false ∧
    canDefrost sampleOpts ⟨none⟩ 0 { sampleCtx with indoorTemp := some (.num 0) } = false :=
  zero_reading_blocks_guards sampleOpts ⟨none⟩ 0
    { sampleCtx with indoorTemp := some (.num 0) } (Or.inl rfl)

/-- Claim C10: In every state that handles `UPDATE_TEMPERATURES` (`idle`,
`heating`, `cooling`, `manualOverride`), the event leaves the machine state
unchanged and modifies only `indoorTemp`, `outdoorTemp`, `currentHour` and
`isWeekday` (the latter two refreshed from the wall clock, although the event
does not carry them); `lastDefrost`, `systemMode` and the strategy state are
unchanged. -/
theorem updateTemperatures_frame (opts : HvacOptions) (clock : Clock)
    (s : MachineState) (i o : JSNum)
    (hs : s.state = .idle ∨ s.state = .heating ∨ s.state = .cooling ∨
          s.state = .manualOverride) :
    step opts clock s (.updateTemperatures i o) =
      { state := s.state
        context :=
          { indoorTemp := some i
            outdoorTemp := some o
            currentHour := clock.hour
            isWeekday := clock.weekday
            lastDefrost := s.context.lastDefrost
            systemMode := s.context.systemMode }
        strategy := s.strategy } := by
  obtain ⟨st, ctx, strat⟩ := s
  exact step_update_four opts clock ctx strat st hs i o

/-- Claim C10 witness: for an `UPDATE_TEMPERATURES` processed in the `idle`
state. -/
theorem updateTemperatures_frame_witness :
    step sampleOpts sampleClock ⟨.idle, sampleCtx, ⟨none⟩⟩
        (.updateTemperatures (.num 19) (.num 5)) =
      ⟨.idle,
        { indoorTemp := some (.num 19), outdoorTemp := some (.num 5),
          currentHour := 10, isWeekday := true, lastDefrost := none,
          systemMode := .auto },
        ⟨none⟩⟩ :=
  updateTemperatures_frame sampleOpts sampleClock ⟨.idle, sampleCtx, ⟨none⟩⟩
    (.num 19) (.num 5) (Or.inl rfl)

/-- Claim C6 counterexample: The `updateConditions` event-handling action merges
its payload wholesale into the context, so an `UPDATE_CONDITIONS` event whose
payload carries a `systemMode` value does change `systemMode`: starting from
the sample context (`systemMode = AUTO`), the machine's own action assigns
`OFF`.  This refutes the clause that no event-handling action assigns
`systemMode`. -/
theorem systemMode_updateConditions_cex :
    sampleCtx.systemMode = .auto ∧
    (step sampleOpts sampleClock ⟨.idle, sampleCtx, ⟨none⟩⟩
        (.updateConditions { PartialHVACContext.empty with systemMode := some .off })
      ).context.systemMode = .off := ⟨rfl, rfl⟩

/-- Claim C6 (amended): For every sequence of events none of which is an
`UPDATE_CONDITIONS` whose payload carries a `systemMode` value, the machine
leaves `systemMode` untouched: no guard, entry action, timed transition or
other event-handling action assigns it.  The only way the machine's context
changes `systemMode` is the verbatim merge of an externally supplied
`UPDATE_CONDITIONS` payload that explicitly contains one. -/
theorem systemMode_preserved (opts : HvacOptions) (s : MachineState)
    (events : List (Clock × HVACEvent))
    (hev : ∀ ce ∈ events, carriesSystemMode ce.2 = false) :
    (events.foldl (fun acc ce => step opts ce.1 acc ce.2) s).context.systemMode =
      s.context.systemMode := by
  induction events generalizing s with
  | nil => rfl
  | cons ce rest ih =>
      have hstep := step_systemMode opts ce.1 s ce.2 (hev ce (List.mem_cons_self ce rest))
      rw [List.foldl_cons, ih _ (fun e he => hev e (List.mem_cons_of_mem _ he)), hstep]

/-- Claim C6 witness: for a sequence of temperature updates and evaluations
carrying no `systemMode` payload. -/
theorem systemMode_preserved_witness :
    (([(sampleClock, .updateTemperatures (.num 19) (.num 5)),
       (sampleClock, .autoEvaluate),
       (sampleClock, .heat)] : List (Clock × HVACEvent)).foldl
        (fun acc ce => step sampleOpts ce.1 acc ce.2)
        ⟨.idle, sampleCtx, ⟨none⟩⟩).context.systemMode =
      sampleCtx.systemMode :=
  systemMode_preserved sampleOpts ⟨.idle, sampleCtx, ⟨none⟩⟩ _
    (by intro ce hce; fin_cases hce <;> rfl)

/-- Claim C5: Actuation in the evaluate-and-execute step.  First conjunct:
commands are issued iff the resolved operating mode (`heating`→heat,
`defrosting`→heat, `cooling`→cool, `idle`→off, otherwise undefined) is
defined and the machine state changed across the `AUTO_EVALUATE` send or the
current state is `manualOverride`.  Second and third conjuncts: sending
`UPDATE_TEMPERATURES` with identical values twice followed by two
`AUTO_EVALUATE` rounds — in either interleaving (update, update, evaluate,
evaluate; or the orchestrator's update, evaluate, update, evaluate) — never
issues a second round of actuation commands.  The hypothesis excludes the
transient `evaluating` state, which XState resolves before any snapshot, so
no rest state of the machine carries it. -/
theorem evaluateAndExecute_spec (opts : HvacOptions) (clock : Clock)
    (s : MachineState) (i o : JSNum) (hs : s.state ≠ .evaluating) :
    ((evaluateAndExecute opts clock s).2 = true ↔
      ((getCurrentHVACMode (step opts clock s .autoEvaluate).state).isSome ∧
       (s.state ≠ (step opts clock s .autoEvaluate).state ∨
        (step opts clock s .autoEvaluate).state = .manualOverride))) ∧
    ((evaluateAndExecute opts clock
        ((evaluateAndExecute opts clock
          (step opts clock (step opts clock s (.updateTemperatures i o))
            (.updateTemperatures i o))).1)).2 = false) ∧
    ((evaluateAndExecute opts clock
        (step opts clock
          ((evaluateAndExecute opts clock
            (step opts clock s (.updateTemperatures i o))).1)
          (.updateTemperatures i o))).2 = false) := by
  obtain ⟨st, ctx, strat⟩ := s
  refine ⟨?_, ?_, ?_⟩
  · simp only [evaluateAndExecute, Bool.and_eq_true, Bool.or_eq_true,
      Bool.not_eq_true', beq_eq_false_iff_ne, beq_iff_eq, ne_eq,
      Option.isSome_iff_exists]
  · cases st with
    | evaluating => exact absurd rfl hs
    | defrosting =>
        rw [step_update_defrosting, step_update_defrosting,
          evaluateAndExecute_defrosting]
        rw [show ((⟨.defrosting, ctx, strat⟩ : MachineState), false).1 =
            (⟨.defrosting, ctx, strat⟩ : MachineState) from rfl,
          evaluateAndExecute_defrosting]
    | idle =>
        rw [step_update_four opts clock ctx strat _ (by simp) i o,
          step_update_four opts clock _ strat _ (by simp) i o,
          updateTemperaturesAction_idem,
          evaluateAndExecute_fst,
          step_eval_four opts clock _ strat _ (by simp),
          evaluateAndExecute_at_target]
    | heating =>
        rw [step_update_four opts clock ctx strat _ (by simp) i o,
          step_update_four opts clock _ strat _ (by simp) i o,
          updateTemperaturesAction_idem,
          evaluateAndExecute_fst,
          step_eval_four opts clock _ strat _ (by simp),
          evaluateAndExecute_at_target]
    | cooling =>
        rw [step_update_four opts clock ctx strat _ (by simp) i o,
          step_update_four opts clock _ strat _ (by simp) i o,
          updateTemperaturesAction_idem,
          evaluateAndExecute_fst,
          step_eval_four opts clock _ strat _ (by simp),
          evaluateAndExecute_at_target]
    | manualOverride =>
        rw [step_update_four opts clock ctx strat _ (by simp) i o,
          step_update_four opts clock _ strat _ (by simp) i o,
          updateTemperaturesAction_idem,
          evaluateAndExecute_fst,
          step_eval_four opts clock _ strat _ (by simp),
          evaluateAndExecute_at_target]
  · cases st with
    | evaluating => exact absurd rfl hs
    | defrosting =>
        rw [step_update_defrosting, evaluateAndExecute_defrosting]
        rw [show ((⟨.defrosting, ctx, strat⟩ : MachineState), false).1 =
            (⟨.defrosting, ctx, strat⟩ : MachineState) from rfl,
          step_update_defrosting, evaluateAndExecute_defrosting]
    | idle =>
        rw [step_update_four opts clock ctx strat _ (by simp) i o,
          evaluateAndExecute_fst,
          step_eval_four opts clock _ strat _ (by simp),
          step_update_four opts clock _ strat _
            (by rcases evalTarget_mem opts (updateTemperaturesAction clock ctx i o) with h | h | h <;> simp [h]) i o,
          updateTemperaturesAction_idem,
          evaluateAndExecute_at_target]
    | heating =>
        rw [step_update_four opts clock ctx strat _ (by simp) i o,
          evaluateAndExecute_fst,
          step_eval_four opts clock _ strat _ (by simp),
          step_update_four opts clock _ strat _
            (by rcases evalTarget_mem opts (updateTemperaturesAction clock ctx i o) with h | h | h <;> simp [h]) i o,
          updateTemperaturesAction_idem,
          evaluateAndExecute_at_target]
    | cooling =>
        rw [step_update_four opts clock ctx strat _ (by simp) i o,
          evaluateAndExecute_fst,
          step_eval_four opts clock _ strat _ (by simp),
          step_update_four opts clock _ strat _
            (by rcases evalTarget_mem opts (updateTemperaturesAction clock ctx i o) with h | h | h <;> simp [h]) i o,
          updateTemperaturesAction_idem,
          evaluateAndExecute_at_target]
    | manualOverride =>
        rw [step_update_four opts clock ctx strat _ (by simp) i o,
          evaluateAndExecute_fst,
          step_eval_four opts clock _ strat _ (by simp),
          step_update_four opts clock _ strat _
            (by rcases evalTarget_mem opts (updateTemperaturesAction clock ctx i o) with h | h | h <;> simp [h]) i o,
          updateTemperaturesAction_idem,
          evaluateAndExecute_at_target]

/-- Claim C5 witness: instantiating the idempotence part of the theorem in the
`idle` state with identical temperature updates. -/
theorem evaluateAndExecute_spec_witness :
    (evaluateAndExecute sampleOpts sampleClock
        ((evaluateAndExecute sampleOpts sampleClock
          (step sampleOpts sampleClock
            (step sampleOpts sampleClock ⟨.idle, sampleCtx, ⟨none⟩⟩
              (.updateTemperatures (.num 19) (.num 5)))
            (.updateTemperatures (.num 19) (.num 5)))).1)).2 = false :=
  (evaluateAndExecute_spec sampleOpts sampleClock ⟨.idle, sampleCtx, ⟨none⟩⟩
    (.num 19) (.num 5) (by simp)).2.1

/-- Claim C7 counterexample: When the controller is already running, `start()`
does **not** fail: the already-running branch logs a warning and completes
successfully (`Effect.asVoid`) without touching anything.  With no failing
step configured and an already-running world, the returned error is `none`,
refuting the claim that `start()` fails whenever already running. -/
theorem start_already_running_cex :
    start { connectFails := false, subscribeFails := false } runningWorld =
      (none, runningWorld) := rfl

/-- Claim C7 (amended): When the controller is already running, `start()`
succeeds as a warning-logging no-op.  Otherwise it fails — surfacing the
structured state error `Failed to start HVAC controller` — exactly when a
startup step throws (the gateway connection, the state machine start, which
throws iff the machine is already running, or the event subscription), and on
failure it rolls back the partial start by running `stop()`: the controller
ends not running, with the monitor, machine and connection all stopped.  On
success the controller is marked running. -/
theorem start_spec (env : StartEnv) (w : ControllerWorld) :
    (w.running = true → start env w = (none, w)) ∧
    (w.running = false →
      (((start env w).1 = some startFailure) ↔
        (env.connectFails = true ∨ w.machineRunning = true ∨
         env.subscribeFails = true)) ∧
      ((start env w).1 = none → (start env w).2.running = true) ∧
      ((start env w).1 = some startFailure →
        (start env w).2.running = false ∧
        (start env w).2.monitorActive = false ∧
        (start env w).2.machineRunning = false ∧
        (start env w).2.haConnected = false)) := by
  obtain ⟨r, hc, mr, sub, mon⟩ := w
  obtain ⟨cf, sf⟩ := env
  cases r <;> cases cf <;> cases mr <;> cases sf <;>
    simp [start, stop, startFailure]

/-- Claim C7 witness: for the amended statement: from a fresh world with a
failing gateway connection, `start()` fails and the rollback leaves the
controller not running. -/
theorem start_spec_witness :
    ((start { connectFails := true, subscribeFails := false }
        { running := false, haConnected := false, machineRunning := false,
          subscribed := false, monitorActive := false }).1 = some startFailure) ∧
    ((start { connectFails := true, subscribeFails := false }
        { running := false, haConnected := false, machineRunning := false,
          subscribed := false, monitorActive := false }).2.running = false) := by
  have h := (start_spec { connectFails := true, subscribeFails := false }
    { running := false, haConnected := false, machineRunning := false,
      subscribed := false, monitorActive := false }).2 rfl
  exact ⟨h.1.mpr (Or.inl rfl), (h.2.2 (h.1.mpr (Or.inl rfl))).1⟩

/-- Claim C8: `stop()` is total — its Effect type is `Effect<void, never>` and
its pipeline ends in a `catchAll`, so it never fails — and callable in any
controller world, including one left behind by a partial or failed `start()`.
It marks the controller not running, stops the monitoring fiber and the state
machine, disconnects the gateway, and is idempotent: a second call changes
nothing and succeeds as well. -/
theorem stop_spec (w : ControllerWorld) :
    (stop w).running = false ∧ (stop w).monitorActive = false ∧
    (stop w).machineRunning = false ∧ (stop w).haConnected = false ∧
    stop (stop w) = stop w :=
  ⟨rfl, rfl, rfl, rfl, rfl⟩

end HAG
